import Mathlib

/-!
Shallow embedding of the 0361 audio-infrastructure services:

* `src/src/processor.py` and `src/src/api.py` — the WhisperLive service
  (batch transcription endpoints, in-memory result store, health check);
* `src/main.py` — the FastAPI application with the global exception
  handler and the WebSocket streaming endpoint;
* `src/containers/whisper/src/processor.py` — the faster-whisper
  container;
* `src/containers/whisperx/src/api.py` — the whisperx container API.

Timestamps (Python floats) are embedded as rationals; wall-clock values
such as `processing_time_seconds` are not modelled. Effectful steps
(storage download/upload, model inference) appear as explicit outcome
parameters of the functions that call them.
-/

namespace AudioInfra

/-- Status values of `StatusEnum` in `src/src/models.py`. -/
inductive StatusEnum where
  | success
  | error
  | pending
  | processing
  | skipped
deriving DecidableEq, Repr

/-- One raw segment as returned by the WhisperLive model in
`process_audio` (`src/src/processor.py`): a dict whose keys are read
with `.get` and may be absent.  The numbering `rid` produced by the
model is present in the dict but never read by the service. -/
structure RawSegment where
  rid : Option Int
  rstart : Option Rat
  rend : Option Rat
  rtext : Option String
deriving DecidableEq, Repr

/-- The dict returned by `whisper_model.inference` in
`src/src/processor.py`: `result.get("segments", [])` and
`result.get("text", "")`. -/
structure ModelResult where
  segments : Option (List RawSegment)
  text : Option String
deriving DecidableEq, Repr

/-- One element of `segments_list` built by `process_audio` in
`src/src/processor.py` (the Python dict
literal with keys id/start/end/text). -/
structure OutSegment where
  id : Nat
  startTime : Rat
  endTime : Rat
  text : String
deriving DecidableEq, Repr

/-- The transcript dict built at the end of `process_audio` in
`src/src/processor.py`: keys segments/language/text. -/
structure TranscriptResult where
  segments : List OutSegment
  language : String
  text : String
deriving DecidableEq, Repr

/-- `LANGUAGE = os.environ.get("LANGUAGE", "ko")` in
`src/src/processor.py`. -/
def LANGUAGE (envLanguage : Option String) : String :=
  envLanguage.getD "ko"

/-- The body of the `for i, segment in enumerate(...)` loop of
`process_audio` in `src/src/processor.py`: one entry of `segments_list`. -/
def mkOutSegment (i : Nat) (s : RawSegment) : OutSegment :=
  { id := i
    startTime := s.rstart.getD 0
    endTime := s.rend.getD 0
    text := (s.rtext.getD "").trim }

/-- `process_audio` of the WhisperLive service (`src/src/processor.py`,
lines 170-219), as a function of the model inference result; the
effectful wrapper (file loading, executor dispatch) is outside the
embedding.  The name avoids the raw Python spelling for lexical
reasons; it embeds `process_audio`. -/
def process_audio_wl (language : String) (res : ModelResult) : TranscriptResult :=
  { segments := ((res.segments.getD []).enum).map (fun p => mkOutSegment p.1 p.2)
    language := language
    text := res.text.getD "" }

/-- One word with timestamps as produced by faster-whisper
(`segment.words` entries in
`src/containers/whisper/src/processor.py`). -/
structure FWWord where
  word : String
  wstart : Rat
  wend : Rat
  probability : Rat
deriving DecidableEq, Repr

/-- One raw segment from the faster-whisper `segments_generator`
(`src/containers/whisper/src/processor.py`): attributes start/end/text
are always present; `words` may be `None` (the code reads
`segment.words or []`). -/
structure FWRawSegment where
  fstart : Rat
  fend : Rat
  ftext : String
  words : Option (List FWWord)
deriving DecidableEq, Repr

/-- The `info` object returned by `whisper_model.transcribe` in the
faster-whisper container. -/
structure FWInfo where
  language : String
  languageProbability : Rat
deriving DecidableEq, Repr

/-- One element of `segments_list` in the faster-whisper container
(`src/containers/whisper/src/processor.py`, the dict literal with keys
id/start/end/text/words). -/
structure FWOutSegment where
  id : Nat
  startTime : Rat
  endTime : Rat
  text : String
  words : List FWWord
deriving DecidableEq, Repr

/-- The result dict of `process_audio` in the faster-whisper container:
keys segments/language/text/language_probability. -/
structure FWResult where
  segments : List FWOutSegment
  language : String
  text : String
  languageProbability : Rat
deriving DecidableEq, Repr

/-- One iteration of the `for segment in segments_generator` loop in the
faster-whisper `process_audio`: append the segment dict (its `id` is
`len(segments_list)` at that point) and extend `full_text`. -/
def fwStep (acc : List FWOutSegment × String) (s : FWRawSegment) :
    List FWOutSegment × String :=
  (acc.1 ++ [{ id := acc.1.length
               startTime := s.fstart
               endTime := s.fend
               text := s.ftext.trim
               words := s.words.getD [] }],
   acc.2 ++ s.ftext ++ " ")

/-- `process_audio` of the faster-whisper container
(`src/containers/whisper/src/processor.py`, lines 125-182), as a
function of the generated segments and the `info` object. -/
def process_audio_fw (info : FWInfo) (segs : List FWRawSegment) : FWResult :=
  let acc := segs.foldl fwStep ([], "")
  { segments := acc.1
    language := info.language
    text := acc.2.trim
    languageProbability := info.languageProbability }

/-- A small JSON value type, for stating which top-level keys the
persisted transcript records carry. -/
inductive JVal where
  | null
  | str (s : String)
  | num (q : Rat)
  | boolean (b : Bool)
  | arr (elems : List JVal)
  | obj (fields : List (String × JVal))
deriving Repr

/-- Top-level keys of a JSON object (in insertion order). -/
def JVal.topKeys : JVal → List String
  | .obj fields => fields.map (fun p => p.1)
  | _ => []

/-- JSON rendering of one WhisperLive segment dict (key order of the
dict literal in `src/src/processor.py`). -/
def OutSegment.toJson (s : OutSegment) : JVal :=
  .obj [("id", .num s.id), ("start", .num s.startTime),
        ("end", .num s.endTime), ("text", .str s.text)]

/-- JSON rendering of the WhisperLive transcript record
(`transcript_result` in `src/src/processor.py`, the document handed to
`upload_transcript` and serialized with `json.dumps`). -/
def TranscriptResult.toJson (r : TranscriptResult) : JVal :=
  .obj [("segments", .arr (r.segments.map OutSegment.toJson)),
        ("language", .str r.language),
        ("text", .str r.text)]

/-- JSON rendering of one faster-whisper word dict. -/
def FWWord.toJson (w : FWWord) : JVal :=
  .obj [("word", .str w.word), ("start", .num w.wstart),
        ("end", .num w.wend), ("probability", .num w.probability)]

/-- JSON rendering of one faster-whisper segment dict. -/
def FWOutSegment.toJson (s : FWOutSegment) : JVal :=
  .obj [("id", .num s.id), ("start", .num s.startTime),
        ("end", .num s.endTime), ("text", .str s.text),
        ("words", .arr (s.words.map FWWord.toJson))]

/-- JSON rendering of the faster-whisper transcript record (`result` in
`src/containers/whisper/src/processor.py`, the document handed to
`upload_transcript`). -/
def FWResult.toJson (r : FWResult) : JVal :=
  .obj [("segments", .arr (r.segments.map FWOutSegment.toJson)),
        ("language", .str r.language),
        ("text", .str r.text),
        ("language_probability", .num r.languageProbability)]

/-- Outcome of one effectful step (download, inference, upload, file
write): either a value or a raised exception carrying its message. -/
inductive Outcome (α : Type) where
  | ok (val : α)
  | exn (msg : String)
deriving DecidableEq, Repr

/-- Response model `AudioProcessingResponse` of `src/src/models.py`
(the wall-clock field `processing_time_seconds` is not modelled). -/
structure AudioProcessingResponse where
  status : StatusEnum
  message : String
  requestId : Option String
  transcriptLocation : Option String
  errorDetails : Option String
deriving DecidableEq, Repr

/-- The decoded Pub/Sub message body seen by `transcribe_audio`
(`src/src/api.py`): either the decoded JSON fields (each possibly
absent), a `json.JSONDecodeError`, or some other exception raised
while decoding (e.g. a base64 error). -/
inductive DecodedMessage where
  | fields (bucket name sessionId : Option String)
  | jsonError
  | decodeFailure (msg : String)
deriving DecidableEq, Repr

/-- `supported_formats` in `src/src/api.py` (both endpoints) and
`src/containers/whisperx/src/api.py`. -/
def supported_formats : List String :=
  [".mp3", ".wav", ".m4a", ".flac", ".ogg", ".aac"]

/-- Python `str.lower()` on one character (ASCII case, which covers the
extension strings involved). -/
def lowerChar (c : Char) : Char :=
  if 65 ≤ c.toNat ∧ c.toNat ≤ 90 then Char.ofNat (c.toNat + 32) else c

/-- Python `str.lower()`. -/
def pyLower (s : String) : String :=
  String.mk (s.data.map lowerChar)

/-- Python `str.endswith(suffix)`. -/
def pyEndsWith (s suffix : String) : Bool :=
  suffix.data.isSuffixOf s.data

/-- The extension test of `transcribe_audio`
(`src/src/api.py`, line 76):
`any(request.name.lower().endswith(fmt) for fmt in supported_formats)`. -/
def hasSupportedExt (name : String) : Bool :=
  supported_formats.any (fun fmt => pyEndsWith (pyLower name) fmt)

/-- Indices of the dot characters in a list of characters. -/
def dotPositions (cs : List Char) : List Nat :=
  (List.range cs.length).filter (fun i => cs.getD i ' ' = '.')

/-- Python `pathlib.Path(name).suffix` for a plain file name: the part
from the last dot, provided that dot is neither the first nor the last
character; otherwise the empty string. -/
def pathSuffix (name : String) : String :=
  let cs := name.data
  match (dotPositions cs).getLast? with
  | some i => if 0 < i && i + 1 < cs.length then String.mk (cs.drop i) else ""
  | none => ""

/-- `transcribe_audio` of `src/src/api.py` (lines 39-114; the whisperx
copy in `src/containers/whisperx/src/api.py` is identical), as a
function of the decoded message.  Returns the response together with
whether `background_tasks.add_task(process_audio_file, ...)` was
called.  `requestId` stands for the generated uuid (the error branches
generate a fresh uuid; the difference is irrelevant here and one
parameter is used). -/
def transcribe_audio_wl (requestId : String) :
    DecodedMessage → AudioProcessingResponse × Bool
  | .jsonError =>
    ({ status := .error, message := "잘못된 메시지 형식",
       requestId := some requestId, transcriptLocation := none,
       errorDetails := none }, false)
  | .decodeFailure e =>
    ({ status := .error, message := "서버 내부 오류",
       requestId := some requestId, transcriptLocation := none,
       errorDetails := some e }, false)
  | .fields bucket name _ =>
    match bucket, name with
    | some b, some n =>
      if b = "" || n = "" then
        ({ status := .error, message := "버킷 또는 파일명이 제공되지 않았습니다",
           requestId := some requestId, transcriptLocation := none,
           errorDetails := none }, false)
      else if ! hasSupportedExt n then
        ({ status := .skipped, message := "지원되지 않는 파일 형식: " ++ n,
           requestId := some requestId, transcriptLocation := none,
           errorDetails := none }, false)
      else
        ({ status := .pending, message := "오디오 처리가 시작되었습니다",
           requestId := some requestId, transcriptLocation := none,
           errorDetails := none }, true)
    | _, _ =>
      -- AudioProcessingRequest has required str fields bucket and name:
      -- a missing value raises a pydantic ValidationError, caught by
      -- the outer `except Exception` branch of the endpoint.
      ({ status := .error, message := "서버 내부 오류",
         requestId := some requestId, transcriptLocation := none,
         errorDetails := some "validation error" }, false)

/-- `upload_and_transcribe` of `src/src/api.py` (lines 117-180), as a
function of the uploaded file name and the outcome of saving the
upload to a temp file.  Returns the response together with whether
`background_tasks.add_task(process_uploaded_file, ...)` was called. -/
def upload_and_transcribe_wl (requestId : String) (filename : String)
    (save : Outcome Unit) : AudioProcessingResponse × Bool :=
  let ext := pyLower (pathSuffix filename)
  if ! supported_formats.any (fun fmt => pyEndsWith ext fmt) then
    ({ status := .skipped, message := "지원되지 않는 파일 형식: " ++ filename,
       requestId := some requestId, transcriptLocation := none,
       errorDetails := none }, false)
  else
    match save with
    | .exn e =>
      ({ status := .error, message := "서버 내부 오류",
         requestId := some requestId, transcriptLocation := none,
         errorDetails := some e }, false)
    | .ok _ =>
      ({ status := .pending, message := "오디오 처리가 시작되었습니다",
         requestId := some requestId, transcriptLocation := none,
         errorDetails := none }, true)

/-- One entry of the in-memory store `transcription_results` in
`src/src/processor.py`: the result dict built by `process_audio_file`
or `process_uploaded_file`.  Keys absent from a branch's dict literal
are `none`; `processing_time_seconds` (wall clock) is not modelled. -/
structure ResultDict where
  status : String
  message : String
  requestId : Option String
  transcriptLocation : Option String
  errorDetails : Option String
  result : Option TranscriptResult
deriving DecidableEq, Repr

/-- The in-memory store `transcription_results = {}` of
`src/src/processor.py`, as an insertion-ordered association list.
Keys are `Option String` because `process_audio_file` accepts
`request_id=None`. -/
def Store : Type := List (Option String × ResultDict)

/-- Python dict assignment `transcription_results[request_id] = r`:
replace the value at an existing key in place, else append. -/
def storeSet : Store → Option String → ResultDict → Store
  | [], k, v => [(k, v)]
  | p :: rest, k, v =>
    if p.1 = k then (k, v) :: rest else p :: storeSet rest k v

/-- Python dict lookup `transcription_results[request_id]`. -/
def lookupStore (st : Store) (k : Option String) : Option ResultDict :=
  (st.find? (fun p => p.1 == k)).map (fun p => p.2)

/-- Python membership test `request_id in transcription_results`. -/
def storeHasKey (st : Store) (k : Option String) : Bool :=
  st.any (fun p => p.1 == k)

/-- The error dict built by the `except Exception` branches of
`process_audio_file` and `process_uploaded_file`
(`src/src/processor.py`). -/
def errorDict (requestId : Option String) (e : String) : ResultDict :=
  { status := "error", message := "오디오 처리 중 오류 발생",
    requestId := requestId, transcriptLocation := none,
    errorDetails := some e, result := none }

/-- The success dict built by `process_audio_file` and
`process_uploaded_file` (`src/src/processor.py`). -/
def successDict (requestId : Option String) (location : Option String)
    (tr : TranscriptResult) : ResultDict :=
  { status := "success", message := "오디오 처리 완료",
    requestId := requestId, transcriptLocation := location,
    errorDetails := none, result := some tr }

/-- `process_audio_file` of `src/src/processor.py` (lines 222-290):
download, transcribe, upload, store the result (success or error dict)
under `request_id` and return it.  The three effectful steps are
outcome parameters; `transcriptBucket` is the `TRANSCRIPT_BUCKET`
environment value (falsy when `None` or empty). -/
def process_audio_file_wl (transcriptBucket : Option String)
    (download : Outcome String) (infer : Outcome TranscriptResult)
    (upload : Outcome String) (requestId : Option String)
    (store : Store) : ResultDict × Store :=
  let r : ResultDict :=
    match download with
    | .exn e => errorDict requestId e
    | .ok _ =>
      match infer with
      | .exn e => errorDict requestId e
      | .ok tr =>
        match upload with
        | .exn e => errorDict requestId e
        | .ok tname =>
          let location :=
            match transcriptBucket with
            | some b => if b = "" then tname else "gs://" ++ b ++ "/" ++ tname
            | none => tname
          successDict requestId (some location) tr
  (r, storeSet store requestId r)

/-- `process_uploaded_file` of `src/src/processor.py` (lines 292-380):
transcribe the uploaded file, persist the transcript (GCS upload
failures are swallowed; local-save failures reach the outer handler),
store the result dict under `request_id` and return it. -/
def process_uploaded_file_wl (gcsConfigured : Bool)
    (transcriptBucket : String) (infer : Outcome TranscriptResult)
    (uploadOk : Bool) (localSave : Outcome Unit) (requestId : String)
    (store : Store) : ResultDict × Store :=
  let fileName := "upload_" ++ requestId ++ ".json"
  let r : ResultDict :=
    match infer with
    | .exn e => errorDict (some requestId) e
    | .ok tr =>
      if gcsConfigured then
        -- the inner try/except continues with transcript_location = None
        let location :=
          if uploadOk then some ("gs://" ++ transcriptBucket ++ "/" ++ fileName)
          else none
        successDict (some requestId) location tr
      else
        match localSave with
        | .exn e => errorDict (some requestId) e
        | .ok _ => successDict (some requestId) (some ("transcripts/" ++ fileName)) tr
  (r, storeSet store (some requestId) r)

/-- The responses `get_transcription_result` (`src/src/api.py`, lines
183-243) can produce: a raised `HTTPException` 404, the 500 error
body, the 200 in-progress body, the transcript returned directly with
200, or the 200 success-without-data fallback. -/
inductive TrApiResponse where
  | notFound (detail : String)
  | errorBody (message : String) (requestId : String) (errorDetails : Option String)
  | statusBody (status message requestId : String)
  | transcript (tr : TranscriptResult)
  | successNoData (requestId : String) (transcriptLocation : Option String)
deriving DecidableEq, Repr

/-- HTTP status code of each `get_transcription_result` response. -/
def TrApiResponse.statusCode : TrApiResponse → Nat
  | .notFound _ => 404
  | .errorBody _ _ _ => 500
  | .statusBody _ _ _ => 200
  | .transcript _ => 200
  | .successNoData _ _ => 200

/-- `get_transcription_result` of `src/src/api.py` (lines 183-243), as
a function of the store.  The dict reads `result.get("status")` and
`result.get("message", default)` always find a value because every
stored dict carries both keys; the truthiness test
`if "result" in result and result["result"]` holds exactly when the
`result` key is present (the stored transcript dict always has three
keys, hence is truthy). -/
def get_transcription_result_wl (store : Store) (requestId : String) :
    TrApiResponse :=
  match lookupStore store (some requestId) with
  | none =>
    .notFound ("요청된 ID의 트랜스크립션 결과를 찾을 수 없습니다: " ++ requestId)
  | some r =>
    if r.status = "error" then
      .errorBody r.message requestId r.errorDetails
    else if r.status ≠ "success" then
      .statusBody r.status r.message requestId
    else
      match r.result with
      | some tr => .transcript tr
      | none => .successNoData requestId r.transcriptLocation

/-- The model object constructed by `load_model` in
`src/src/processor.py` (a `WhisperLiveASR` instance; its behaviour is
opaque, only its presence matters). -/
structure WhisperLiveASR where
  modelName : String
  device : String
  computeType : String
  language : String
deriving DecidableEq, Repr

/-- The module-level `try: load_model() except Exception: warn` block
of `src/src/processor.py` (lines 72-76): a failed pre-load leaves the
global `model` unset and only logs a warning — the process keeps
serving. -/
def module_preload (attempt : Outcome WhisperLiveASR) : Option WhisperLiveASR :=
  match attempt with
  | .ok m => some m
  | .exn _ => none

/-- Process state the health endpoint could in principle observe: the
global `model` (which is `None` after a failed load) and the
`ENVIRONMENT` variable. -/
structure ServiceState where
  model : Option WhisperLiveASR
  envEnvironment : Option String
deriving DecidableEq, Repr

/-- Response model `HealthResponse` of `src/src/models.py`. -/
structure HealthResponse where
  status : String
  version : String
  environment : Option String
deriving DecidableEq, Repr

/-- `API_VERSION` in `src/src/api.py`. -/
def API_VERSION : String := "v1"

/-- `health_check` of `src/src/api.py` (lines 282-296; the whisperx
copy is identical): it reads only the `ENVIRONMENT` variable and
returns status "healthy" without consulting the model state. -/
def health_check_wl (s : ServiceState) : HealthResponse :=
  { status := "healthy", version := API_VERSION,
    environment := some (s.envEnvironment.getD "development") }

/-- A `JSONResponse` as produced in `src/main.py`. -/
structure JSONResponseModel where
  statusCode : Nat
  body : JVal
deriving Repr

/-- `global_exception_handler` of `src/main.py` (lines 54-61): any
exception escaping a route handler becomes a 500 JSON error body. -/
def global_exception_handler_wl (_excMessage : String) : JSONResponseModel :=
  { statusCode := 500,
    body := .obj [("status", .str "error"),
                  ("message", .str "내부 서버 오류가 발생했습니다")] }

/-- A server-to-client WebSocket frame of the streaming endpoint
(`src/main.py`): the initial connected event, or a transcription
result frame (shape per spec §6). -/
inductive WsFrame where
  | connected (sessionId : String)
  | result (sessionId : String) (sequence : Nat) (isFinal : Bool) (text : String)
deriving DecidableEq, Repr

/-- The receive loop of `websocket_endpoint` in `src/main.py` (lines
87-96): empty payloads are skipped, otherwise
`websocket_manager.process_audio` runs and may send result frames.
`emit` abstracts `WebSocketManager.process_audio`.
Modelled from the spec: `WebSocketManager` lives in
`src/websocket.py`, which is absent from the source tree; per spec §6
its per-chunk processing only produces transcription result frames,
here left as an arbitrary emitter function. -/
def ws_receive_loop (emit : List Nat → List WsFrame) :
    List (List Nat) → List WsFrame
  | [] => []
  | d :: rest =>
    if d.isEmpty then ws_receive_loop emit rest
    else emit d ++ ws_receive_loop emit rest

/-- `websocket_endpoint` of `src/main.py` (lines 71-105), as the
ordered list of frames sent to the client for a finite stream of
received byte chunks.  `sessionId` stands for the value returned by
`websocket_manager.register` (modelled from the spec: the manager is
in the absent `src/websocket.py`; per spec it assigns a fresh id).
The code sends the connected event before entering the receive loop. -/
def websocket_endpoint_wl (emit : List Nat → List WsFrame)
    (sessionId : String) (chunks : List (List Nat)) : List WsFrame :=
  WsFrame.connected sessionId :: ws_receive_loop emit chunks

/-- A session value held by the registry (contents opaque for the
registry claims). -/
structure Session where
  sessionId : String
deriving DecidableEq, Repr

/-- Modelled from the spec: `SessionRegistry` (spec §4.4) — the
process-wide table mapping session identifiers to sessions, with
`create`/`get`/`remove`.  Its implementation (`WebSocketManager` in
`src/websocket.py`) is absent from the source tree; the table is
embedded as an insertion-ordered association list. -/
structure SessionRegistry where
  sessions : List (String × Session)
deriving DecidableEq, Repr

/-- Modelled from the spec: `SessionRegistry.get(id)` returns the
session registered under `id`, if any. -/
def SessionRegistry.get (r : SessionRegistry) (id : String) : Option Session :=
  (r.sessions.find? (fun p => p.1 == id)).map (fun p => p.2)

/-- Modelled from the spec: `SessionRegistry.remove(id)` deletes the
entry registered under `id`; removing an absent id is a no-op (the
function is total, so no error is raised). -/
def SessionRegistry.remove (r : SessionRegistry) (id : String) : SessionRegistry :=
  { sessions := r.sessions.filter (fun p => ! (p.1 == id)) }

/-- Whether an effectful step succeeded. -/
def Outcome.isOk {α : Type} : Outcome α → Bool
  | .ok _ => true
  | .exn _ => false

/-- Field lookup in a JSON object. -/
def JVal.field (j : JVal) (key : String) : Option JVal :=
  match j with
  | .obj fields => (fields.find? (fun p => p.1 == key)).map (fun p => p.2)
  | _ => none

/-- A concrete transcript value, used to instantiate theorems with
hypotheses at explicit inputs. -/
def demoTranscript : TranscriptResult :=
  { segments := [{ id := 0, startTime := 0, endTime := 1, text := "안녕하세요" }]
    language := "ko"
    text := "안녕하세요" }

/-- A concrete store with one error entry and one success entry. -/
def demoStore : Store :=
  [(some "e1", errorDict (some "e1") "download failed"),
   (some "s1", successDict (some "s1") (some "gs://b/s1.json") demoTranscript)]

/-- A concrete emitter standing for `WebSocketManager.process_audio`:
sends one result frame per non-empty chunk. -/
def demoEmit : List Nat → List WsFrame :=
  fun _ => [WsFrame.result "s" 0 false "안녕"]

/-- A concrete registry with a single session. -/
def demoRegistry : SessionRegistry :=
  { sessions := [("a", { sessionId := "a" })] }

/-- Ids in the faster-whisper segment fold continue the accumulator's
positional numbering. -/
theorem fw_foldl_ids (segs : List FWRawSegment) :
    ∀ (acc : List FWOutSegment) (t : String),
      (∀ (i : Nat) (h : i < acc.length), (acc.get ⟨i, h⟩).id = i) →
      ∀ (i : Nat) (h : i < (segs.foldl fwStep (acc, t)).1.length),
        ((segs.foldl fwStep (acc, t)).1.get ⟨i, h⟩).id = i := by
  induction segs with
  | nil => intro acc t hacc; simpa using hacc
  | cons s rest ih =>
    intro acc t hacc
    simp only [List.foldl_cons]
    apply ih
    intro j hj
    simp only [fwStep] at hj ⊢
    rcases Nat.lt_or_ge j acc.length with hlt | hge
    · rw [List.get_eq_getElem, List.getElem_append_left hlt]
      exact hacc j hlt
    · have hlen : j < acc.length + 1 := by
        simpa using hj
      have hj' : j = acc.length := by omega
      rw [List.get_eq_getElem, List.getElem_concat_length _ _ _ hj']
      exact hj'.symm

/-- C1: the segment `id` fields in the transcript produced by
`process_audio` (both the WhisperLive service and the faster-whisper
container) are assigned by position — `segments[i].id = i` — so the
sequence is 0,1,2,..., gap-free and monotonic, and any numbering the
model produced is discarded. -/
theorem c1_segment_ids_sequential :
    (∀ (language : String) (res : ModelResult) (i : Nat)
        (h : i < (process_audio_wl language res).segments.length),
        ((process_audio_wl language res).segments.get ⟨i, h⟩).id = i)
    ∧
    (∀ (info : FWInfo) (segs : List FWRawSegment) (i : Nat)
        (h : i < (process_audio_fw info segs).segments.length),
        ((process_audio_fw info segs).segments.get ⟨i, h⟩).id = i) := by
  constructor
  · intro language res i h
    simp [process_audio_wl, mkOutSegment, List.getElem_enum] at h ⊢
  · intro info segs i h
    exact fw_foldl_ids segs [] "" (by intro i h; simp at h) i h

/-- C1 witness: a concrete two-segment inference result, with model
numbering 7 and 3, yields ids 0 and 1. -/
theorem c1_segment_ids_sequential_witness :
    ((process_audio_wl "ko"
        { segments := some
            [{ rid := some 7, rstart := some 0, rend := some 1, rtext := some "a" },
             { rid := some 3, rstart := some 1, rend := some 2, rtext := some "b" }]
          text := some "a b" }).segments.get ⟨1, by decide⟩).id = 1
    ∧ ((process_audio_fw { language := "ko", languageProbability := 1 }
        [{ fstart := 0, fend := 1, ftext := "a", words := none },
         { fstart := 1, fend := 2, ftext := "b", words := none }]).segments.get
          ⟨1, by decide⟩).id = 1 :=
  ⟨c1_segment_ids_sequential.1 "ko" _ 1 (by decide),
   c1_segment_ids_sequential.2 { language := "ko", languageProbability := 1 } _ 1 (by decide)⟩

/-- C10: the `language` field of every WhisperLive transcript equals
the configured `LANGUAGE` environment constant (default "ko"),
independent of the audio content. -/
theorem c10_language_from_env_constant :
    (∀ (envLanguage : Option String) (res : ModelResult),
        (process_audio_wl (LANGUAGE envLanguage) res).language = LANGUAGE envLanguage)
    ∧ LANGUAGE none = "ko"
    ∧ (∀ (language : String) (res res2 : ModelResult),
        (process_audio_wl language res).language
          = (process_audio_wl language res2).language) :=
  ⟨fun _ _ => rfl, rfl, fun _ _ _ => rfl⟩

/-- C2 counterexample: the faster-whisper container persists a record
whose top-level keys include `language_probability`, so the record is
not a document with exactly the keys segments/language/text. -/
theorem c2_record_keys_counterexample :
    "language_probability" ∈
      ((process_audio_fw { language := "ko", languageProbability := 9/10 }
          [{ fstart := 0, fend := 1, ftext := "안녕", words := none }]).toJson).topKeys
    ∧ "language_probability" ∉ ["segments", "language", "text"] := by
  constructor
  · simp [process_audio_fw, FWResult.toJson, JVal.topKeys]
  · decide

/-- C2 amended: the WhisperLive service's transcript record has
exactly the top-level keys segments, language, text (in that order);
the faster-whisper container's record has exactly those three plus
`language_probability`. -/
theorem c2_record_keys_amended :
    (∀ (language : String) (res : ModelResult),
        ((process_audio_wl language res).toJson).topKeys
          = ["segments", "language", "text"])
    ∧ (∀ (info : FWInfo) (segs : List FWRawSegment),
        ((process_audio_fw info segs).toJson).topKeys
          = ["segments", "language", "text", "language_probability"]) :=
  ⟨fun _ _ => rfl, fun _ _ => rfl⟩

/-- C3 counterexample: a decoded message naming `lecture.txt` (an
unsupported extension) with an empty bucket is answered with status
"error", not "skipped" — the bucket/name validation precedes the
extension check in `transcribe_audio`. -/
theorem c3_unsupported_ext_counterexample :
    hasSupportedExt "lecture.txt" = false
    ∧ (transcribe_audio_wl "r" (.fields (some "") (some "lecture.txt") none)).1.status
        = StatusEnum.error
    ∧ (transcribe_audio_wl "r" (.fields (some "") (some "lecture.txt") none)).1.status
        ≠ StatusEnum.skipped := by
  refine ⟨by decide, rfl, by decide⟩

/-- C3 amended: a request whose file name fails the case-insensitive
supported-suffix test never enqueues a background task; the transcribe
endpoint answers status "skipped" provided bucket and name are both
present and non-empty (requests failing that earlier validation get
status "error"); the upload endpoint answers "skipped" and does not
enqueue whenever the lower-cased `Path(...).suffix` matches no
supported format. -/
theorem c3_unsupported_ext_amended :
    (∀ (requestId : String) (b : Option String) (n : String) (sid : Option String),
        hasSupportedExt n = false →
        (transcribe_audio_wl requestId (.fields b (some n) sid)).2 = false)
    ∧ (∀ (requestId b n : String) (sid : Option String),
        hasSupportedExt n = false → b ≠ "" → n ≠ "" →
        (transcribe_audio_wl requestId (.fields (some b) (some n) sid)).1.status
            = StatusEnum.skipped
        ∧ (transcribe_audio_wl requestId (.fields (some b) (some n) sid)).2 = false)
    ∧ (∀ (requestId fn : String) (save : Outcome Unit),
        supported_formats.any (fun fmt => pyEndsWith (pyLower (pathSuffix fn)) fmt) = false →
        (upload_and_transcribe_wl requestId fn save).1.status = StatusEnum.skipped
        ∧ (upload_and_transcribe_wl requestId fn save).2 = false) := by
  refine ⟨?_, ?_, ?_⟩
  · intro requestId b n sid hext
    cases b with
    | none => rfl
    | some b =>
      simp only [transcribe_audio_wl]
      split
      · rfl
      · rw [hext]
        simp
  · intro requestId b n sid hext hb hn
    simp only [transcribe_audio_wl]
    rw [if_neg (by simp [hb, hn]), hext]
    simp
  · intro requestId fn save hext
    simp only [upload_and_transcribe_wl]
    rw [hext]
    simp

/-- C3 amended witness: concrete instances — pub/sub request for
`b/lecture.txt` is skipped and not enqueued; upload of `talk.txt` is
skipped and not enqueued. -/
theorem c3_unsupported_ext_amended_witness :
    ((transcribe_audio_wl "r" (.fields (some "b") (some "lecture.txt") none)).1.status
        = StatusEnum.skipped
      ∧ (transcribe_audio_wl "r" (.fields (some "b") (some "lecture.txt") none)).2 = false)
    ∧ ((upload_and_transcribe_wl "r" "talk.txt" (.ok ())).1.status = StatusEnum.skipped
      ∧ (upload_and_transcribe_wl "r" "talk.txt" (.ok ())).2 = false) :=
  ⟨c3_unsupported_ext_amended.2.1 "r" "b" "lecture.txt" none (by decide)
      (by decide) (by decide),
   c3_unsupported_ext_amended.2.2 "r" "talk.txt" (.ok ()) (by decide)⟩

/-- C4: no exception raised while handling a transcription request
reaches the caller raw.  Every outcome of `transcribe_audio` is a
structured `AudioProcessingResponse` whose status is a documented
result state (error, skipped or pending); a decoding exception becomes
the "error" response with message and `error_details`; a
`json.JSONDecodeError` becomes the "error" response; and any exception
escaping a handler is turned into a 500 JSON body with keys
status/message and status "error" by the global handler. -/
theorem c4_exceptions_translated :
    (∀ (requestId : String) (m : DecodedMessage),
        (transcribe_audio_wl requestId m).1.status = StatusEnum.error
        ∨ (transcribe_audio_wl requestId m).1.status = StatusEnum.skipped
        ∨ (transcribe_audio_wl requestId m).1.status = StatusEnum.pending)
    ∧ (∀ (requestId e : String),
        (transcribe_audio_wl requestId (.decodeFailure e)).1
          = { status := .error, message := "서버 내부 오류",
              requestId := some requestId, transcriptLocation := none,
              errorDetails := some e })
    ∧ (∀ requestId : String,
        (transcribe_audio_wl requestId .jsonError).1.status = StatusEnum.error)
    ∧ (∀ excMessage : String,
        (global_exception_handler_wl excMessage).statusCode = 500
        ∧ (global_exception_handler_wl excMessage).body.topKeys = ["status", "message"]
        ∧ (global_exception_handler_wl excMessage).body.field "status"
            = some (.str "error")) := by
  refine ⟨?_, fun _ _ => rfl, fun _ => rfl, fun _ => ⟨rfl, rfl, rfl⟩⟩
  intro requestId m
  rcases m with ⟨b, n, sid⟩ | _ | e
  · cases b <;> cases n <;> simp only [transcribe_audio_wl] <;> try simp
    split
    · simp
    · split <;> simp
  · simp [transcribe_audio_wl]
  · simp [transcribe_audio_wl]

/-- C5 counterexample: in the process state where the model failed to
load (the global `model` is unset after the swallowed pre-load
exception), the health endpoint still reports "healthy" — refuting
the claim that such a state is never reported healthy. -/
theorem c5_health_counterexample :
    module_preload (.exn "model load failed") = none
    ∧ (health_check_wl { model := none, envEnvironment := none }).status
        = "healthy" :=
  ⟨rfl, rfl⟩

/-- C5 amended: a failed model pre-load is swallowed (logged, retried
lazily on first request) and the health endpoint reports status
"healthy" unconditionally — its response is independent of the model
state, so a model-initialization failure is never surfaced as an
unhealthy status. -/
theorem c5_health_ignores_model_amended :
    (∀ e : String, module_preload (.exn e) = none)
    ∧ (∀ s : ServiceState, (health_check_wl s).status = "healthy")
    ∧ (∀ s s2 : ServiceState, s.envEnvironment = s2.envEnvironment →
        health_check_wl s = health_check_wl s2) := by
  refine ⟨fun _ => rfl, fun _ => rfl, fun s s2 h => ?_⟩
  simp [health_check_wl, h]

/-- C5 amended witness: the loaded and failed states with the same
environment produce the same health response, and the failed state
reports "healthy". -/
theorem c5_health_ignores_model_amended_witness :
    health_check_wl { model := none, envEnvironment := some "prod" }
      = health_check_wl
          { model := some { modelName := "medium", device := "cpu",
                            computeType := "float16", language := "ko" },
            envEnvironment := some "prod" }
    ∧ (health_check_wl { model := none, envEnvironment := some "prod" }).status
        = "healthy" :=
  ⟨c5_health_ignores_model_amended.2.2 _ _ rfl,
   c5_health_ignores_model_amended.2.1 _⟩

/-- C6: for every accepted streaming connection, the first
server-to-client frame is the connected event carrying the session id
assigned to the new session, and every transcription result frame
comes strictly later — for any behaviour of the (spec-modelled)
per-chunk emitter. -/
theorem c6_first_frame_connected :
    ∀ (emit : List Nat → List WsFrame) (sessionId : String)
      (chunks : List (List Nat)),
      (websocket_endpoint_wl emit sessionId chunks).head?
          = some (.connected sessionId)
      ∧ ∀ (j : Nat) (h : j < (websocket_endpoint_wl emit sessionId chunks).length)
          (sid : String) (q : Nat) (fin : Bool) (t : String),
          (websocket_endpoint_wl emit sessionId chunks).get ⟨j, h⟩
              = .result sid q fin t → 0 < j := by
  intro emit sessionId chunks
  refine ⟨rfl, ?_⟩
  intro j h sid q fin t heq
  cases j with
  | zero => simp [websocket_endpoint_wl] at heq
  | succ j => exact Nat.succ_pos j

/-- C6 witness: with a concrete emitter and one non-empty chunk, the
first frame is the connected event and the result frame sits at a
positive index. -/
theorem c6_first_frame_connected_witness :
    (websocket_endpoint_wl demoEmit "s" [[1]]).head? = some (.connected "s")
    ∧ 0 < 1 :=
  ⟨(c6_first_frame_connected demoEmit "s" [[1]]).1,
   (c6_first_frame_connected demoEmit "s" [[1]]).2 1 (by decide) "s" 0 false "안녕" rfl⟩

/-- C7: `SessionRegistry.remove` is idempotent — removing the same id
twice leaves the registry exactly as removing it once — and removing
an id that is not registered is a no-op (the operation is total, so no
error is raised). -/
theorem c7_remove_idempotent :
    ∀ (r : SessionRegistry) (id : String),
      (r.remove id).remove id = r.remove id
      ∧ (r.get id = none → r.remove id = r) := by
  intro r id
  constructor
  · simp only [SessionRegistry.remove, List.filter_filter, Bool.and_self]
  · intro hnone
    have hfind : r.sessions.find? (fun p => p.1 == id) = none := by
      simpa [SessionRegistry.get, Option.map_eq_none'] using hnone
    have hall : ∀ p ∈ r.sessions, ¬ ((p.1 == id) = true) :=
      List.find?_eq_none.mp hfind
    have : r.sessions.filter (fun p => ! (p.1 == id)) = r.sessions := by
      refine List.filter_eq_self.mpr ?_
      intro p hp
      simpa using hall p hp
    cases r
    simp only [SessionRegistry.remove]
    congr 1

/-- C7 witness: removing the unregistered id "b" from a concrete
one-session registry twice equals removing it once, and once is a
no-op. -/
theorem c7_remove_idempotent_witness :
    ((demoRegistry.remove "b").remove "b" = demoRegistry.remove "b")
    ∧ demoRegistry.remove "b" = demoRegistry :=
  ⟨(c7_remove_idempotent demoRegistry "b").1,
   (c7_remove_idempotent demoRegistry "b").2 rfl⟩

/-- Dict assignment followed by lookup at the same key returns the
assigned value. -/
theorem lookupStore_storeSet (st : Store) (k : Option String) (v : ResultDict) :
    lookupStore (storeSet st k v) k = some v := by
  induction st with
  | nil => simp [storeSet, lookupStore]
  | cons p rest ih =>
    by_cases h : p.1 = k
    · simp [storeSet, h, lookupStore]
    · simp only [storeSet, if_neg h]
      simp only [lookupStore, List.find?_cons] at ih ⊢
      have hb : (p.1 == k) = false := by simpa using h
      rw [hb]
      exact ih

/-- Dict assignment never removes a key. -/
theorem storeHasKey_storeSet (st : Store) (k k2 : Option String) (v : ResultDict) :
    storeHasKey st k2 = true → storeHasKey (storeSet st k v) k2 = true := by
  induction st with
  | nil => simp [storeHasKey]
  | cons p rest ih =>
    intro hk
    by_cases h : p.1 = k
    · simp only [storeSet, if_pos h]
      simp only [storeHasKey, List.any_cons, Bool.or_eq_true] at hk ⊢
      rcases hk with hk | hk
      · left
        rw [← h]
        exact hk
      · right
        exact hk
    · simp only [storeSet, if_neg h]
      simp only [storeHasKey, List.any_cons, Bool.or_eq_true] at hk ⊢
      rcases hk with hk | hk
      · left
        exact hk
      · right
        exact ih hk

/-- C9: the two background workflows of the WhisperLive service are
total — every outcome combination yields a result dict — and the dict
they return is exactly the dict stored under the request id: status
"success" exactly when every required step succeeded, otherwise
status "error" with `error_details` set; the store update preserves
all existing keys (nothing is ever evicted). -/
theorem c9_workflows_store_result :
    (∀ (tb : Option String) (dl : Outcome String) (inf : Outcome TranscriptResult)
        (ul : Outcome String) (rid : Option String) (store : Store),
        ((process_audio_file_wl tb dl inf ul rid store).1.status = "success"
            ↔ (dl.isOk = true ∧ inf.isOk = true ∧ ul.isOk = true))
        ∧ ((process_audio_file_wl tb dl inf ul rid store).1.status = "success"
            ∨ ((process_audio_file_wl tb dl inf ul rid store).1.status = "error"
               ∧ (process_audio_file_wl tb dl inf ul rid store).1.errorDetails.isSome
                   = true))
        ∧ (process_audio_file_wl tb dl inf ul rid store).2
            = storeSet store rid (process_audio_file_wl tb dl inf ul rid store).1
        ∧ lookupStore (process_audio_file_wl tb dl inf ul rid store).2 rid
            = some (process_audio_file_wl tb dl inf ul rid store).1
        ∧ (∀ k, storeHasKey store k = true →
            storeHasKey (process_audio_file_wl tb dl inf ul rid store).2 k = true))
    ∧ (∀ (gcs : Bool) (tb : String) (inf : Outcome TranscriptResult) (uok : Bool)
        (ls : Outcome Unit) (rid : String) (store : Store),
        ((process_uploaded_file_wl gcs tb inf uok ls rid store).1.status = "success"
            ↔ (inf.isOk = true ∧ (gcs = true ∨ ls.isOk = true)))
        ∧ ((process_uploaded_file_wl gcs tb inf uok ls rid store).1.status = "success"
            ∨ ((process_uploaded_file_wl gcs tb inf uok ls rid store).1.status = "error"
               ∧ (process_uploaded_file_wl gcs tb inf uok ls rid store).1.errorDetails.isSome
                   = true))
        ∧ (process_uploaded_file_wl gcs tb inf uok ls rid store).2
            = storeSet store (some rid)
                (process_uploaded_file_wl gcs tb inf uok ls rid store).1
        ∧ lookupStore (process_uploaded_file_wl gcs tb inf uok ls rid store).2 (some rid)
            = some (process_uploaded_file_wl gcs tb inf uok ls rid store).1
        ∧ (∀ k, storeHasKey store k = true →
            storeHasKey (process_uploaded_file_wl gcs tb inf uok ls rid store).2 k
              = true)) := by
  constructor
  · intro tb dl inf ul rid store
    refine ⟨?_, ?_, rfl, lookupStore_storeSet _ _ _,
      fun k hk => storeHasKey_storeSet _ _ _ _ hk⟩
    · cases dl <;> cases inf <;> cases ul <;>
        simp [process_audio_file_wl, errorDict, successDict, Outcome.isOk]
    · cases dl <;> cases inf <;> cases ul <;>
        simp [process_audio_file_wl, errorDict, successDict]
  · intro gcs tb inf uok ls rid store
    refine ⟨?_, ?_, rfl, lookupStore_storeSet _ _ _,
      fun k hk => storeHasKey_storeSet _ _ _ _ hk⟩
    · cases inf <;> cases ls <;> cases gcs <;>
        simp [process_uploaded_file_wl, errorDict, successDict, Outcome.isOk]
    · cases inf <;> cases ls <;> cases gcs <;>
        simp [process_uploaded_file_wl, errorDict, successDict]

/-- C9 witness: a concrete failing download stores the error dict and
keeps the pre-existing key, and a concrete successful upload run
stores the success dict. -/
theorem c9_workflows_store_result_witness :
    ((process_audio_file_wl (some "b") (.exn "boom") (.ok demoTranscript)
          (.ok "t.json") (some "r1") demoStore).1.status = "success"
      ∨ ((process_audio_file_wl (some "b") (.exn "boom") (.ok demoTranscript)
            (.ok "t.json") (some "r1") demoStore).1.status = "error"
         ∧ (process_audio_file_wl (some "b") (.exn "boom") (.ok demoTranscript)
              (.ok "t.json") (some "r1") demoStore).1.errorDetails.isSome = true))
    ∧ storeHasKey (process_audio_file_wl (some "b") (.exn "boom") (.ok demoTranscript)
          (.ok "t.json") (some "r1") demoStore).2 (some "e1") = true
    ∧ (process_uploaded_file_wl true "b" (.ok demoTranscript) true (.ok ())
          "r2" demoStore).1.status = "success" :=
  ⟨(c9_workflows_store_result.1 (some "b") (.exn "boom") (.ok demoTranscript)
      (.ok "t.json") (some "r1") demoStore).2.1,
   (c9_workflows_store_result.1 (some "b") (.exn "boom") (.ok demoTranscript)
      (.ok "t.json") (some "r1") demoStore).2.2.2.2 (some "e1") rfl,
   ((c9_workflows_store_result.2 true "b" (.ok demoTranscript) true (.ok ())
      "r2" demoStore).1).mpr ⟨rfl, Or.inl rfl⟩⟩

/-- C8: `get_transcription_result` answers 404 exactly when the
request id is absent from the in-memory store; a stored "error" entry
is answered with 500 carrying the stored message and error details;
a stored "success" entry whose `result` is present is answered with
200 returning that transcript directly. -/
theorem c8_result_endpoint_cases :
    ∀ (store : Store) (requestId : String),
      ((∃ d, get_transcription_result_wl store requestId = .notFound d)
          ↔ lookupStore store (some requestId) = none)
      ∧ (lookupStore store (some requestId) = none →
          (get_transcription_result_wl store requestId).statusCode = 404)
      ∧ (∀ r, lookupStore store (some requestId) = some r → r.status = "error" →
          get_transcription_result_wl store requestId
              = .errorBody r.message requestId r.errorDetails
          ∧ (get_transcription_result_wl store requestId).statusCode = 500)
      ∧ (∀ r tr, lookupStore store (some requestId) = some r →
          r.status = "success" → r.result = some tr →
          get_transcription_result_wl store requestId = .transcript tr
          ∧ (get_transcription_result_wl store requestId).statusCode = 200) := by
  intro store requestId
  refine ⟨⟨?_, ?_⟩, ?_, ?_, ?_⟩
  · rintro ⟨d, hd⟩
    cases hl : lookupStore store (some requestId) with
    | none => rfl
    | some r =>
      exfalso
      simp only [get_transcription_result_wl, hl] at hd
      split_ifs at hd
      cases hres : r.result <;> rw [hres] at hd <;> exact TrApiResponse.noConfusion hd
  · intro hl
    exact ⟨"요청된 ID의 트랜스크립션 결과를 찾을 수 없습니다: " ++ requestId,
      by simp [get_transcription_result_wl, hl]⟩
  · intro hl
    simp [get_transcription_result_wl, hl, TrApiResponse.statusCode]
  · intro r hl hs
    have hresp : get_transcription_result_wl store requestId
        = .errorBody r.message requestId r.errorDetails := by
      simp [get_transcription_result_wl, hl, hs]
    exact ⟨hresp, by rw [hresp]; rfl⟩
  · intro r tr hl hs hres
    have hresp : get_transcription_result_wl store requestId = .transcript tr := by
      simp only [get_transcription_result_wl, hl]
      rw [if_neg (by rw [hs]; decide), if_neg (by rw [hs]; simp), hres]
    exact ⟨hresp, by rw [hresp]; rfl⟩

/-- C8 witness: on the concrete two-entry store, the error entry gets
the 500 error body, the success entry gets the transcript with 200,
and an unknown id gets 404. -/
theorem c8_result_endpoint_cases_witness :
    (get_transcription_result_wl demoStore "e1"
        = .errorBody "오디오 처리 중 오류 발생" "e1" (some "download failed"))
    ∧ get_transcription_result_wl demoStore "s1" = .transcript demoTranscript
    ∧ (get_transcription_result_wl demoStore "missing").statusCode = 404 :=
  ⟨((c8_result_endpoint_cases demoStore "e1").2.2.1
      (errorDict (some "e1") "download failed") rfl rfl).1,
   ((c8_result_endpoint_cases demoStore "s1").2.2.2
      (successDict (some "s1") (some "gs://b/s1.json") demoTranscript)
      demoTranscript rfl rfl rfl).1,
   (c8_result_endpoint_cases demoStore "missing").2.1 rfl⟩

end AudioInfra
